import Mathlib

/-
Verification of the alert triage and dispatch engine of the
hospital-patient-monitoring-scheduler repository (src/Code/Project.cpp).

The C++ source is shallowly embedded below.  `double` values are modelled
as exact rationals (ℚ): every comparison the algorithms perform is an
order comparison or an exact arithmetic operation, so the rational model
matches the real-number semantics of the source expressions; the one
square root (in FalseAlarmDetector) is handled by comparing squares,
which is equivalent for nonnegative quantities, and the correspondence
with the real-valued z-score is proved as a theorem.  Timestamps are
modelled as natural numbers (the code only ever compares them and takes
differences).
-/

namespace HospitalMonitor

/-- Priority enumeration from the source; the numeric values 1..4 are the
underlying C++ enum values (lower number = higher urgency). -/
inductive Priority where
  | CRITICAL
  | HIGH
  | MEDIUM
  | LOW
deriving DecidableEq, Repr

/-- Underlying integer value of the C++ `Priority` enum. -/
def Priority.toNat : Priority → ℕ
  | Priority.CRITICAL => 1
  | Priority.HIGH => 2
  | Priority.MEDIUM => 3
  | Priority.LOW => 4

/-- Vital-sign enumeration from the source. -/
inductive VitalSign where
  | HEART_RATE
  | BLOOD_PRESSURE
  | OXYGEN_SATURATION
  | TEMPERATURE
  | RESPIRATORY_RATE
deriving DecidableEq, Repr

/-- `VitalReading` struct from the source: type, value, timestamp, patientId. -/
structure VitalReading where
  type : VitalSign
  value : ℚ
  timestamp : ℕ
  patientId : ℕ
deriving DecidableEq, Repr

/-- `Alert` struct from the source. -/
structure Alert where
  patientId : ℕ
  priority : Priority
  message : String
  relatedVital : VitalSign
  createdAt : ℕ
  acknowledged : Bool
deriving DecidableEq, Repr

/-- `Patient::initializeNormalRanges`: the per-vital (min, max) normal
ranges.  In the source this map is identical for every patient, so it is
a single function here. -/
def normalRanges : VitalSign → ℚ × ℚ
  | VitalSign.HEART_RATE => (60, 100)
  | VitalSign.BLOOD_PRESSURE => (90, 140)
  | VitalSign.OXYGEN_SATURATION => (95, 100)
  | VitalSign.TEMPERATURE => (36.1, 37.2)
  | VitalSign.RESPIRATORY_RATE => (12, 20)

/-- Shared tail of `Patient::assessRisk`: the generic normal-range check
the per-vital bands fall through to. -/
def normalRangeCheck (value : ℚ) (range : ℚ × ℚ) : Priority :=
  if value < range.1 ∨ value > range.2 then Priority.MEDIUM else Priority.LOW

/-- `Patient::assessRisk`: per-vital critical/high/medium bands with early
return, falling through to the generic normal-range check. -/
def assessRisk (reading : VitalReading) : Priority :=
  let range := normalRanges reading.type
  let value := reading.value
  match reading.type with
  | VitalSign.HEART_RATE =>
      if value < 30 ∨ value > 180 then Priority.CRITICAL
      else if value < 50 ∨ value > 120 then Priority.HIGH
      else normalRangeCheck value range
  | VitalSign.OXYGEN_SATURATION =>
      if value < 85 then Priority.CRITICAL
      else if value < 92 then Priority.HIGH
      else normalRangeCheck value range
  | VitalSign.BLOOD_PRESSURE =>
      if value < 60 ∨ value > 200 then Priority.CRITICAL
      else if value < 80 ∨ value > 160 then Priority.HIGH
      else normalRangeCheck value range
  | VitalSign.TEMPERATURE =>
      if value < 35.0 ∨ value > 39.0 then Priority.HIGH
      else if value < 35.5 ∨ value > 38.5 then Priority.MEDIUM
      else normalRangeCheck value range
  | VitalSign.RESPIRATORY_RATE =>
      if value < 8 ∨ value > 30 then Priority.HIGH
      else if value < 10 ∨ value > 25 then Priority.MEDIUM
      else normalRangeCheck value range

/-- C1: for every heart-rate reading, `assessRisk` (the spec's `classify`)
returns CRITICAL when the value is below 30 or above 180, and returns HIGH
when the value is strictly between 30 and 50 or strictly between 120
and 180. -/
theorem assessRisk_heartRate_bands (v : ℚ) (ts pid : ℕ) :
    (v < 30 ∨ v > 180 →
      assessRisk ⟨VitalSign.HEART_RATE, v, ts, pid⟩ = Priority.CRITICAL) ∧
    ((30 < v ∧ v < 50) ∨ (120 < v ∧ v < 180) →
      assessRisk ⟨VitalSign.HEART_RATE, v, ts, pid⟩ = Priority.HIGH) := by
  constructor
  · intro h
    simp only [assessRisk]
    rw [if_pos h]
  · intro h
    have h1 : ¬(v < 30 ∨ v > 180) := by
      rcases h with ⟨a, b⟩ | ⟨a, b⟩ <;> push_neg <;> constructor <;> linarith
    have h2 : v < 50 ∨ v > 120 := by
      rcases h with ⟨a, b⟩ | ⟨a, b⟩
      · exact Or.inl b
      · exact Or.inr a
    simp only [assessRisk]
    rw [if_neg h1, if_pos h2]

/-- Witness for C1 at concrete heart-rate values 20, 190 (CRITICAL band)
and 40, 130 (HIGH band). -/
theorem assessRisk_heartRate_bands_witness :
    assessRisk ⟨VitalSign.HEART_RATE, 20, 0, 1⟩ = Priority.CRITICAL ∧
    assessRisk ⟨VitalSign.HEART_RATE, 190, 0, 1⟩ = Priority.CRITICAL ∧
    assessRisk ⟨VitalSign.HEART_RATE, 40, 0, 1⟩ = Priority.HIGH ∧
    assessRisk ⟨VitalSign.HEART_RATE, 130, 0, 1⟩ = Priority.HIGH :=
  ⟨(assessRisk_heartRate_bands 20 0 1).1 (by norm_num),
   (assessRisk_heartRate_bands 190 0 1).1 (by norm_num),
   (assessRisk_heartRate_bands 40 0 1).2 (by norm_num),
   (assessRisk_heartRate_bands 130 0 1).2 (by norm_num)⟩

/-- Sum of the adjacent first-differences of a list of values; this is the
loop `for i in [size-4, size-1] : sum += h[i].value - h[i-1].value` of
`Patient::detectTrend`, run over the (last-five) slice it traverses. -/
def adjacentDiffSum : List ℚ → ℚ
  | a :: b :: rest => (b - a) + adjacentDiffSum (b :: rest)
  | _ => 0

/-- `Patient::detectTrend` on the history window of one vital sign:
fewer than 5 readings yields false; otherwise the average of the four
adjacent differences over the last 5 readings is compared against the
fixed threshold 2.0 in absolute value. -/
def detectTrend (history : List VitalReading) : Bool :=
  if history.length < 5 then false
  else
    let lastFive := (history.drop (history.length - 5)).map VitalReading.value
    let sum := adjacentDiffSum lastFive
    let avgChange := sum / 4
    decide (|avgChange| > 2)

/-- Formulation of the adjacent first-differences following the spec
wording: the list of `reading[i] - reading[i-1]` over adjacent pairs. -/
def specAdjacentDiffs (l : List ℚ) : List ℚ :=
  (l.zip l.tail).map (fun p => p.2 - p.1)

theorem adjacentDiffSum_eq_spec :
    ∀ l : List ℚ, adjacentDiffSum l = (specAdjacentDiffs l).sum
  | [] => rfl
  | [_] => rfl
  | a :: b :: rest => by
      rw [adjacentDiffSum, adjacentDiffSum_eq_spec (b :: rest)]
      simp [specAdjacentDiffs]

/-- C2: `detectTrend` returns false on windows of fewer than 5 readings;
on windows of at least 5 readings it returns true exactly when the mean of
the four adjacent first-differences over the last 5 readings exceeds 2.0
in absolute value; and a window of 5 identical readings yields false. -/
theorem detectTrend_spec (history : List VitalReading) :
    (history.length < 5 → detectTrend history = false) ∧
    (5 ≤ history.length →
      (detectTrend history = true ↔
        |(specAdjacentDiffs
            ((history.drop (history.length - 5)).map VitalReading.value)).sum / 4|
          > 2)) ∧
    (∀ r : VitalReading, detectTrend (List.replicate 5 r) = false) := by
  refine ⟨?_, ?_, ?_⟩
  · intro h
    simp [detectTrend, h]
  · intro h
    rw [detectTrend, if_neg (by omega)]
    simp only [adjacentDiffSum_eq_spec, decide_eq_true_eq]
  · intro r
    show detectTrend [r, r, r, r, r] = false
    simp [detectTrend, adjacentDiffSum]

/-- Witness for C2: a 2-reading window yields false, and the trend
criterion instantiated on a concrete 5-reading window. -/
theorem detectTrend_spec_witness :
    detectTrend [⟨VitalSign.HEART_RATE, 80, 0, 1⟩, ⟨VitalSign.HEART_RATE, 95, 1, 1⟩]
      = false ∧
    (detectTrend
        [⟨VitalSign.HEART_RATE, 70, 0, 1⟩, ⟨VitalSign.HEART_RATE, 75, 1, 1⟩,
         ⟨VitalSign.HEART_RATE, 80, 2, 1⟩, ⟨VitalSign.HEART_RATE, 85, 3, 1⟩,
         ⟨VitalSign.HEART_RATE, 90, 4, 1⟩] = true ↔
      |(specAdjacentDiffs
          (([⟨VitalSign.HEART_RATE, 70, 0, 1⟩, ⟨VitalSign.HEART_RATE, 75, 1, 1⟩,
             ⟨VitalSign.HEART_RATE, 80, 2, 1⟩, ⟨VitalSign.HEART_RATE, 85, 3, 1⟩,
             (⟨VitalSign.HEART_RATE, 90, 4, 1⟩ : VitalReading)].drop
              ([⟨VitalSign.HEART_RATE, 70, 0, 1⟩, ⟨VitalSign.HEART_RATE, 75, 1, 1⟩,
                ⟨VitalSign.HEART_RATE, 80, 2, 1⟩, ⟨VitalSign.HEART_RATE, 85, 3, 1⟩,
                (⟨VitalSign.HEART_RATE, 90, 4, 1⟩ : VitalReading)].length - 5)).map
            VitalReading.value)).sum / 4| > 2) :=
  ⟨(detectTrend_spec _).1 (by decide),
   (detectTrend_spec _).2.1 (by decide)⟩

/-- Placeholder reading used only as the (never-reached) default of
`List.getLastD` when modelling `recentReadings.back()`; the source calls
`back()` only after checking the list has at least 5 entries. -/
def dummyReading : VitalReading := ⟨VitalSign.HEART_RATE, 0, 0, 0⟩

/-- `FalseAlarmDetector::calculateMean`. -/
def calculateMean (readings : List VitalReading) : ℚ :=
  (readings.map VitalReading.value).sum / readings.length

/-- Square of `FalseAlarmDetector::calculateStandardDeviation`: the
population variance `Σ (value - mean)^2 / size`.  The source returns
`sqrt` of this quantity; the square root is kept out of the executable
embedding and reintroduced (as `Real.sqrt`) in the theorems relating the
filter to the z-score. -/
def calculateVariance (readings : List VitalReading) (mean : ℚ) : ℚ :=
  ((readings.map (fun r => (r.value - mean) ^ 2)).sum) / readings.length

/-- `FalseAlarmDetector::isLikelyFalseAlarm`.  The source compares
`|latest - mean| / sqrt variance < threshold`; since the standard
deviation is nonnegative and zero exactly when the variance is zero, the
guard `stdDev == 0` is the guard `variance = 0`, and the z-score
comparison is equivalent to `(latest - mean)^2 < threshold^2 * variance`,
which is the exact rational comparison used here (the equivalence is
proved in `isLikelyFalseAlarm_spec`). -/
def isLikelyFalseAlarm (alert : Alert) (recentReadings : List VitalReading) : Bool :=
  if recentReadings.length < 5 then false
  else
    let mean := calculateMean recentReadings
    let variance := calculateVariance recentReadings mean
    if variance = 0 then false
    else
      let currentValue := (recentReadings.getLastD dummyReading).value
      let threshold : ℚ := if alert.priority = Priority.CRITICAL then 2.5 else 1.5
      decide ((currentValue - mean) ^ 2 < threshold ^ 2 * variance)

theorem calculateVariance_nonneg (rs : List VitalReading) (m : ℚ) :
    0 ≤ calculateVariance rs m := by
  unfold calculateVariance
  apply div_nonneg
  · apply List.sum_nonneg
    intro q hq
    simp only [List.mem_map] at hq
    obtain ⟨r, _, rfl⟩ := hq
    positivity
  · positivity

/-- Squared comparison against the variance is the z-score comparison
against the standard deviation, for positive variance and threshold. -/
theorem sq_lt_iff_zscore (x m V t : ℚ) (hV : 0 < V) (ht : 0 < t) :
    ((x - m) ^ 2 < t ^ 2 * V) ↔
      |(x : ℝ) - (m : ℝ)| / Real.sqrt (V : ℝ) < (t : ℝ) := by
  have hVR : (0:ℝ) < (V:ℝ) := by exact_mod_cast hV
  have hs : 0 < Real.sqrt (V:ℝ) := Real.sqrt_pos.mpr hVR
  have htR : (0:ℝ) < (t:ℝ) := by exact_mod_cast ht
  have hsq : Real.sqrt (V:ℝ) ^ 2 = (V:ℝ) := Real.sq_sqrt hVR.le
  rw [div_lt_iff₀ hs]
  constructor
  · intro h
    have hR : ((x:ℝ) - (m:ℝ)) ^ 2 < (t:ℝ) ^ 2 * (V:ℝ) := by exact_mod_cast h
    have h2 : |(x:ℝ) - (m:ℝ)| ^ 2 < ((t:ℝ) * Real.sqrt (V:ℝ)) ^ 2 := by
      rw [sq_abs, mul_pow, hsq]; exact hR
    have hts : 0 < (t:ℝ) * Real.sqrt (V:ℝ) := mul_pos htR hs
    nlinarith [abs_nonneg ((x:ℝ) - (m:ℝ))]
  · intro h
    have h0 : 0 ≤ |(x:ℝ) - (m:ℝ)| := abs_nonneg _
    have h2 : |(x:ℝ) - (m:ℝ)| ^ 2 < ((t:ℝ) * Real.sqrt (V:ℝ)) ^ 2 := by nlinarith
    have hR : ((x:ℝ) - (m:ℝ)) ^ 2 < (t:ℝ) ^ 2 * (V:ℝ) := by
      rw [sq_abs] at h2
      rw [mul_pow, hsq] at h2
      exact h2
    exact_mod_cast hR

/-- C3: the false-alarm filter lets candidates through (returns false)
when fewer than 5 recent readings exist or when the population standard
deviation is zero (equivalently, the population variance is zero); with
at least 5 readings and nonzero deviation, it suppresses (returns true)
exactly when the z-score of the most recent reading is strictly below
2.5 for a CRITICAL candidate and 1.5 for every other priority. -/
theorem isLikelyFalseAlarm_spec (alert : Alert) (rs : List VitalReading) :
    (rs.length < 5 → isLikelyFalseAlarm alert rs = false) ∧
    (calculateVariance rs (calculateMean rs) = 0 →
      isLikelyFalseAlarm alert rs = false) ∧
    (5 ≤ rs.length → calculateVariance rs (calculateMean rs) ≠ 0 →
      (isLikelyFalseAlarm alert rs = true ↔
        |((rs.getLastD dummyReading).value : ℝ) - (calculateMean rs : ℝ)| /
            Real.sqrt ((calculateVariance rs (calculateMean rs) : ℝ))
          < (if alert.priority = Priority.CRITICAL then (2.5:ℝ) else 1.5))) := by
  refine ⟨?_, ?_, ?_⟩
  · intro h
    simp [isLikelyFalseAlarm, h]
  · intro hV
    unfold isLikelyFalseAlarm
    by_cases h : rs.length < 5
    · simp [h]
    · simp [h, hV]
  · intro hlen hV
    have hlen5 : ¬ rs.length < 5 := by omega
    have hVpos : 0 < calculateVariance rs (calculateMean rs) :=
      lt_of_le_of_ne (calculateVariance_nonneg rs (calculateMean rs)) (Ne.symm hV)
    simp only [isLikelyFalseAlarm, hlen5, if_false, hV, decide_eq_true_eq]
    by_cases hp : alert.priority = Priority.CRITICAL
    · simp only [hp, if_pos rfl, if_true]
      exact sq_lt_iff_zscore _ _ _ (2.5 : ℚ) hVpos (by norm_num)
    · simp only [if_neg hp]
      exact sq_lt_iff_zscore _ _ _ (1.5 : ℚ) hVpos (by norm_num)

/-- Sample alert (MEDIUM priority) used by concrete false-alarm scenarios. -/
def alertMediumW : Alert :=
  ⟨1, Priority.MEDIUM, "Test", VitalSign.HEART_RATE, 0, false⟩

/-- Two-reading window: too short for the false-alarm filter. -/
def rsTwo : List VitalReading :=
  [⟨VitalSign.HEART_RATE, 75, 0, 1⟩, ⟨VitalSign.HEART_RATE, 76, 1, 1⟩]

/-- Five-reading window with nonzero variance whose latest reading lies
two standard deviations from the mean. -/
def rsFive : List VitalReading :=
  [⟨VitalSign.HEART_RATE, 10, 0, 1⟩, ⟨VitalSign.HEART_RATE, 10, 1, 1⟩,
   ⟨VitalSign.HEART_RATE, 10, 2, 1⟩, ⟨VitalSign.HEART_RATE, 10, 3, 1⟩,
   ⟨VitalSign.HEART_RATE, 20, 4, 1⟩]

/-- Witness for C3 at the concrete windows `rsTwo` and `rsFive`. -/
theorem isLikelyFalseAlarm_spec_witness :
    isLikelyFalseAlarm alertMediumW rsTwo = false ∧
    (isLikelyFalseAlarm alertMediumW rsFive = true ↔
      |((rsFive.getLastD dummyReading).value : ℝ) - (calculateMean rsFive : ℝ)| /
          Real.sqrt ((calculateVariance rsFive (calculateMean rsFive) : ℝ))
        < (if alertMediumW.priority = Priority.CRITICAL then (2.5:ℝ) else 1.5)) :=
  ⟨(isLikelyFalseAlarm_spec alertMediumW rsTwo).1 (by decide),
   (isLikelyFalseAlarm_spec alertMediumW rsFive).2.2 (by decide)
     (by norm_num [calculateVariance, calculateMean, rsFive])⟩

/-- `AlertComparator::operator()` from the source: `a` is ranked after `b`
when `a` has a larger priority number, or an equal priority number and a
later creation time.  `std::priority_queue` pops the element this strict
weak order ranks greatest, i.e. the most urgent alert. -/
def AlertComparator (a b : Alert) : Bool :=
  if a.priority ≠ b.priority then
    decide (a.priority.toNat > b.priority.toNat)
  else
    decide (a.createdAt > b.createdAt)

/-- Dequeue order stated by the spec: priority ascending (CRITICAL first),
then `createdAt` ascending for equal priority. -/
def AlertLe (a b : Alert) : Prop :=
  a.priority.toNat < b.priority.toNat ∨
    (a.priority.toNat = b.priority.toNat ∧ a.createdAt ≤ b.createdAt)

theorem Priority.toNat_inj (p q : Priority) : p.toNat = q.toNat ↔ p = q := by
  cases p <;> cases q <;> decide

/-- Ranking an alert not-after another under the source comparator is
exactly the spec's dequeue order. -/
theorem AlertComparator_false_iff (a b : Alert) :
    AlertComparator a b = false ↔ AlertLe a b := by
  unfold AlertComparator AlertLe
  by_cases h : a.priority = b.priority
  · rw [if_neg (not_not_intro h)]
    have heq : a.priority.toNat = b.priority.toNat := by rw [h]
    simp only [decide_eq_false_iff_not, not_lt]
    omega
  · rw [if_pos h]
    have hne : a.priority.toNat ≠ b.priority.toNat :=
      fun hc => h ((Priority.toNat_inj a.priority b.priority).mp hc)
    simp only [decide_eq_false_iff_not, not_lt]
    omega

theorem AlertLe_refl (a : Alert) : AlertLe a a := by
  unfold AlertLe; omega

theorem AlertLe_trans {a b c : Alert} : AlertLe a b → AlertLe b c → AlertLe a c := by
  unfold AlertLe; omega

theorem AlertLe_total (a b : Alert) : AlertLe a b ∨ AlertLe b a := by
  unfold AlertLe; omega

theorem AlertComparator_true_le {a b : Alert} (h : AlertComparator a b = true) :
    AlertLe b a := by
  rcases AlertLe_total a b with hab | hba
  · rw [← AlertComparator_false_iff] at hab
    rw [h] at hab
    cases hab
  · exact hba

/-- Selection step of the heap's pop: scan the remaining alerts, keeping
the most urgent seen so far (`std::priority_queue::top` followed by
`pop`), and return it together with the rest of the queue contents. -/
def popMinAux (cur : Alert) : List Alert → Alert × List Alert
  | [] => (cur, [])
  | x :: xs =>
      if AlertComparator cur x then
        ((popMinAux x xs).1, cur :: (popMinAux x xs).2)
      else
        ((popMinAux cur xs).1, x :: (popMinAux cur xs).2)

theorem popMinAux_length (cur : Alert) (l : List Alert) :
    (popMinAux cur l).2.length = l.length := by
  induction l generalizing cur with
  | nil => rfl
  | cons x xs ih =>
    unfold popMinAux
    by_cases h : AlertComparator cur x = true
    · simp [h, ih]
    · simp [h, ih]

theorem popMinAux_perm (cur : Alert) (l : List Alert) :
    ((popMinAux cur l).1 :: (popMinAux cur l).2).Perm (cur :: l) := by
  induction l generalizing cur with
  | nil => simp [popMinAux]
  | cons x xs ih =>
    unfold popMinAux
    by_cases h : AlertComparator cur x = true
    · rw [if_pos h]
      exact (List.Perm.swap cur (popMinAux x xs).1 (popMinAux x xs).2).trans
        ((ih x).cons cur)
    · rw [if_neg h]
      exact ((List.Perm.swap x (popMinAux cur xs).1 (popMinAux cur xs).2).trans
        ((ih cur).cons x)).trans (List.Perm.swap cur x xs)

theorem popMinAux_min (cur : Alert) (l : List Alert) :
    ∀ y ∈ cur :: l, AlertLe (popMinAux cur l).1 y := by
  induction l generalizing cur with
  | nil =>
    intro y hy
    rw [List.mem_singleton] at hy
    subst hy
    exact AlertLe_refl _
  | cons x xs ih =>
    intro y hy
    unfold popMinAux
    by_cases h : AlertComparator cur x = true
    · rw [if_pos h]
      have hxc : AlertLe x cur := AlertComparator_true_le h
      have hminx : AlertLe (popMinAux x xs).1 x := ih x x (List.mem_cons_self x xs)
      rcases List.mem_cons.mp hy with hc | hy2
      · subst hc
        exact AlertLe_trans hminx hxc
      · exact ih x y hy2
    · rw [if_neg h]
      have hcx : AlertLe cur x :=
        (AlertComparator_false_iff cur x).mp (Bool.eq_false_iff.mpr h)
      have hminc : AlertLe (popMinAux cur xs).1 cur :=
        ih cur cur (List.mem_cons_self cur xs)
      rcases List.mem_cons.mp hy with hc | hy2
      · subst hc
        exact hminc
      · rcases List.mem_cons.mp hy2 with hc | hmem
        · subst hc
          exact AlertLe_trans hminc hcx
        · exact ih cur y (List.mem_cons_of_mem cur hmem)

/-- Repeatedly pop the most urgent alert (`AlertProcessor::processAllAlerts`,
which loops `processNextAlert` until the queue is empty).  The fuel
argument bounds the iteration count; `drainAll` supplies the queue length,
which is exactly the number of pops performed. -/
def drainLoop : ℕ → List Alert → List Alert
  | 0, _ => []
  | _ + 1, [] => []
  | fuel + 1, a :: rest =>
      (popMinAux a rest).1 :: drainLoop fuel (popMinAux a rest).2

/-- Full dequeue sequence of the alert queue. -/
def drainAll (l : List Alert) : List Alert := drainLoop l.length l

theorem drainLoop_perm :
    ∀ (fuel : ℕ) (l : List Alert), l.length ≤ fuel → (drainLoop fuel l).Perm l := by
  intro fuel
  induction fuel with
  | zero =>
    intro l hl
    have : l = [] := List.length_eq_zero.mp (Nat.le_zero.mp hl)
    rw [this]
    rfl
  | succ n ih =>
    intro l hl
    match l with
    | [] => rfl
    | a :: rest =>
      rw [drainLoop]
      have hlen : (popMinAux a rest).2.length = rest.length := popMinAux_length a rest
      have hperm2 := ih (popMinAux a rest).2 (by simp only [List.length_cons] at hl; omega)
      exact (hperm2.cons _).trans (popMinAux_perm a rest)

theorem drainLoop_sorted :
    ∀ (fuel : ℕ) (l : List Alert), l.length ≤ fuel →
      List.Pairwise AlertLe (drainLoop fuel l) := by
  intro fuel
  induction fuel with
  | zero =>
    intro l hl
    have : l = [] := List.length_eq_zero.mp (Nat.le_zero.mp hl)
    rw [this]
    exact List.Pairwise.nil
  | succ n ih =>
    intro l hl
    match l with
    | [] => exact List.Pairwise.nil
    | a :: rest =>
      rw [drainLoop]
      have hlen : (popMinAux a rest).2.length = rest.length := popMinAux_length a rest
      have hrest : (popMinAux a rest).2.length ≤ n := by
        simp only [List.length_cons] at hl; omega
      refine List.pairwise_cons.mpr ⟨?_, ih _ hrest⟩
      intro y hy
      have hy2 : y ∈ (popMinAux a rest).2 := (drainLoop_perm n _ hrest).mem_iff.mp hy
      have hy3 : y ∈ a :: rest :=
        (popMinAux_perm a rest).mem_iff.mp (List.mem_cons_of_mem _ hy2)
      exact popMinAux_min a rest y hy3

/-- C4: repeatedly dequeuing the alert queue yields all enqueued alerts
(a permutation of the queue contents) in the total order priority
ascending then `createdAt` ascending; in particular the three alerts
{HIGH, t=1}, {CRITICAL, t=2}, {CRITICAL, t=0} dequeue as {CRITICAL, t=0},
{CRITICAL, t=2}, {HIGH, t=1}. -/
theorem alertQueue_dequeue_order :
    (∀ l : List Alert, (drainAll l).Perm l ∧ List.Pairwise AlertLe (drainAll l)) ∧
    drainAll
        [⟨1, Priority.HIGH, "h", VitalSign.HEART_RATE, 1, false⟩,
         ⟨2, Priority.CRITICAL, "c2", VitalSign.HEART_RATE, 2, false⟩,
         ⟨3, Priority.CRITICAL, "c0", VitalSign.HEART_RATE, 0, false⟩] =
      [⟨3, Priority.CRITICAL, "c0", VitalSign.HEART_RATE, 0, false⟩,
       ⟨2, Priority.CRITICAL, "c2", VitalSign.HEART_RATE, 2, false⟩,
       ⟨1, Priority.HIGH, "h", VitalSign.HEART_RATE, 1, false⟩] := by
  constructor
  · intro l
    exact ⟨drainLoop_perm l.length l le_rfl, drainLoop_sorted l.length l le_rfl⟩
  · rfl

/-- `HospitalScheduler::vitalSignToString`. -/
def vitalSignToString : VitalSign → String
  | VitalSign.HEART_RATE => "Heart Rate"
  | VitalSign.BLOOD_PRESSURE => "Blood Pressure"
  | VitalSign.OXYGEN_SATURATION => "Oxygen Saturation"
  | VitalSign.TEMPERATURE => "Temperature"
  | VitalSign.RESPIRATORY_RATE => "Respiratory Rate"

/-- `HospitalScheduler::generateAlertMessage`; the C++ `static_cast<int>`
truncates toward zero, which agrees with the floor used here for the
nonnegative vital values (no claim depends on the message contents). -/
def generateAlertMessage (reading : VitalReading) (priority : Priority) : String :=
  vitalSignToString reading.type ++ " reading: " ++ toString reading.value.floor ++
    " (Priority: " ++ toString priority.toNat ++ ")"

/-- Mutable state of a `Patient` object: identity fields, the per-vital
history windows, and the stored aggregate risk level.  The normal ranges
are the global `normalRanges` (identical for every patient in the
source). -/
structure PatientState where
  patientId : ℕ
  name : String
  age : ℕ
  vitalHistory : VitalSign → List VitalReading
  currentRiskLevel : Priority

/-- `Patient::addVitalReading`: append, then drop the oldest reading when
the window exceeds 100 entries (`erase(begin())`). -/
def addVitalReading (p : PatientState) (reading : VitalReading) : PatientState :=
  let h := p.vitalHistory reading.type ++ [reading]
  let h2 := if h.length > 100 then h.tail else h
  { p with vitalHistory := fun v => if v = reading.type then h2 else p.vitalHistory v }

/-- `Patient::getRecentReadings`: the last `count` readings of the window
(`start = max(0, size - count)`, mirrored by truncated ℕ subtraction). -/
def getRecentReadings (p : PatientState) (vital : VitalSign) (count : ℕ) :
    List VitalReading :=
  let history := p.vitalHistory vital
  if history.isEmpty then []
  else history.drop (history.length - count)

/-- `HospitalScheduler` together with its embedded `AlertProcessor`:
the patient registry, the alert queue contents, and the processor's two
counters. -/
structure Scheduler where
  patients : List (ℕ × PatientState)
  alertQueue : List Alert
  totalAlertsProcessed : ℕ
  falseAlarmsFiltered : ℕ

/-- `patients.find(...)` on the `std::map` keyed by patient id. -/
def lookupPatient (s : Scheduler) (pid : ℕ) : Option PatientState :=
  (s.patients.find? (fun q => q.1 = pid)).map Prod.snd

/-- Write back the mutated patient record under its key. -/
def updatePatient (s : Scheduler) (pid : ℕ) (p : PatientState) : Scheduler :=
  { s with patients := s.patients.map (fun q => if q.1 = pid then (pid, p) else q) }

/-- `AlertProcessor::addAlert`: push onto the priority queue, modelled as
the multiset of queued alerts. -/
def addAlertToQueue (s : Scheduler) (a : Alert) : Scheduler :=
  { s with alertQueue := s.alertQueue ++ [a] }

/-- Body of `HospitalScheduler::processVitalReading` after the patient
lookup succeeded: append the reading to the window, classify, run the
false-alarm filter on the candidate alert (the suppressed branch of the
source only prints `[FALSE ALARM FILTERED]` — no statement of the source
ever increments `falseAlarmsFiltered`), then run trend detection on the
updated window and enqueue an unconditional MEDIUM trend alert. -/
def processWithPatient (s : Scheduler) (patient0 : PatientState)
    (reading : VitalReading) (now : ℕ) : Scheduler :=
  let patient := addVitalReading patient0 reading
  let s0 := updatePatient s reading.patientId patient
  let risk := assessRisk reading
  let s1 :=
    if risk ≠ Priority.LOW then
      let message := generateAlertMessage reading risk
      let alert : Alert := ⟨reading.patientId, risk, message, reading.type, now, false⟩
      let recent := getRecentReadings patient reading.type 10
      if ! isLikelyFalseAlarm alert recent then addAlertToQueue s0 alert
      else s0
    else s0
  if detectTrend (patient.vitalHistory reading.type) then
    addAlertToQueue s1
      ⟨reading.patientId, Priority.MEDIUM,
       "Concerning trend detected in " ++ vitalSignToString reading.type,
       reading.type, now, false⟩
  else s1

/-- `HospitalScheduler::processVitalReading`: an unknown patient id
returns immediately with no effect; otherwise the body above runs.
`now` is the wall-clock instant stamped on the alerts of this ingest. -/
def processVitalReading (s : Scheduler) (reading : VitalReading) (now : ℕ) : Scheduler :=
  match lookupPatient s reading.patientId with
  | none => s
  | some patient0 => processWithPatient s patient0 reading now

theorem processWithPatient_falseAlarmsFiltered (s : Scheduler) (p0 : PatientState)
    (r : VitalReading) (now : ℕ) :
    (processWithPatient s p0 r now).falseAlarmsFiltered = s.falseAlarmsFiltered := by
  simp only [processWithPatient]
  split_ifs <;> rfl

theorem processWithPatient_totalAlerts (s : Scheduler) (p0 : PatientState)
    (r : VitalReading) (now : ℕ) :
    (processWithPatient s p0 r now).totalAlertsProcessed = s.totalAlertsProcessed := by
  simp only [processWithPatient]
  split_ifs <;> rfl

theorem processWithPatient_patients (s : Scheduler) (p0 : PatientState)
    (r : VitalReading) (now : ℕ) :
    (processWithPatient s p0 r now).patients =
      (updatePatient s r.patientId (addVitalReading p0 r)).patients := by
  simp only [processWithPatient]
  split_ifs <;> rfl

/-- C10: ingesting a reading whose patientId is not registered leaves the
engine state unchanged: patient records (hence every history window), the
alert queue and both counters are untouched — the call is a silent no-op
at the public interface. -/
theorem unregistered_ingest_state_unchanged (s : Scheduler) (r : VitalReading)
    (now : ℕ) (h : lookupPatient s r.patientId = none) :
    (processVitalReading s r now).patients = s.patients ∧
    (processVitalReading s r now).alertQueue = s.alertQueue ∧
    (processVitalReading s r now).totalAlertsProcessed = s.totalAlertsProcessed ∧
    (processVitalReading s r now).falseAlarmsFiltered = s.falseAlarmsFiltered := by
  unfold processVitalReading
  rw [h]
  exact ⟨rfl, rfl, rfl, rfl⟩

/-- Witness for C10: ingesting for unregistered patient 7 into an empty
scheduler changes nothing. -/
theorem unregistered_ingest_state_unchanged_witness :
    (processVitalReading ⟨[], [], 0, 0⟩ ⟨VitalSign.HEART_RATE, 50, 0, 7⟩ 3).patients
        = Scheduler.patients ⟨[], [], 0, 0⟩ ∧
    (processVitalReading ⟨[], [], 0, 0⟩ ⟨VitalSign.HEART_RATE, 50, 0, 7⟩ 3).alertQueue
        = Scheduler.alertQueue ⟨[], [], 0, 0⟩ ∧
    (processVitalReading ⟨[], [], 0, 0⟩ ⟨VitalSign.HEART_RATE, 50, 0, 7⟩ 3).totalAlertsProcessed
        = Scheduler.totalAlertsProcessed ⟨[], [], 0, 0⟩ ∧
    (processVitalReading ⟨[], [], 0, 0⟩ ⟨VitalSign.HEART_RATE, 50, 0, 7⟩ 3).falseAlarmsFiltered
        = Scheduler.falseAlarmsFiltered ⟨[], [], 0, 0⟩ :=
  unregistered_ingest_state_unchanged ⟨[], [], 0, 0⟩ ⟨VitalSign.HEART_RATE, 50, 0, 7⟩ 3 rfl

/-- C6 counterexample: the claim asserts a distinguishable error outcome
for an unknown subject, but the source's `processVitalReading` returns
void and simply returns early, so the ingest of a reading for the
unregistered patient 1 yields a state identical to the input state: the
call is indistinguishable from not having been made at all, and no error
is surfaced anywhere. -/
theorem unknownSubject_no_distinct_failure_counterexample :
    processVitalReading ⟨[], [], 0, 0⟩ ⟨VitalSign.HEART_RATE, 200, 0, 1⟩ 5
      = (⟨[], [], 0, 0⟩ : Scheduler) := rfl

/-- C6 amended: ingesting a reading for a subject with no registered
configuration is silently ignored — the call returns with the engine
state unchanged and no error outcome of any kind (it does not classify
against undefined ranges, but neither does it fail distinctly). -/
theorem unknownSubject_silent_noop (s : Scheduler) (r : VitalReading) (now : ℕ)
    (h : lookupPatient s r.patientId = none) :
    processVitalReading s r now = s := by
  unfold processVitalReading
  rw [h]

/-- Witness for the amended C6 at a concrete unregistered subject. -/
theorem unknownSubject_silent_noop_witness :
    processVitalReading ⟨[], [], 0, 0⟩ ⟨VitalSign.OXYGEN_SATURATION, 90, 2, 4⟩ 9
      = (⟨[], [], 0, 0⟩ : Scheduler) :=
  unknownSubject_silent_noop ⟨[], [], 0, 0⟩ ⟨VitalSign.OXYGEN_SATURATION, 90, 2, 4⟩ 9 rfl

/-- Bounded-window invariant for one patient: every per-vital history
holds at most 100 readings. -/
def PatientInv (p : PatientState) : Prop :=
  ∀ v : VitalSign, (p.vitalHistory v).length ≤ 100

/-- Bounded-window invariant for the whole scheduler. -/
def SchedInv (s : Scheduler) : Prop :=
  ∀ q ∈ s.patients, PatientInv q.2

theorem addVitalReading_other (p : PatientState) (r : VitalReading) (v : VitalSign)
    (hv : v ≠ r.type) :
    (addVitalReading p r).vitalHistory v = p.vitalHistory v := by
  simp [addVitalReading, hv]

theorem addVitalReading_append (p : PatientState) (r : VitalReading)
    (hlen : (p.vitalHistory r.type).length < 100) :
    (addVitalReading p r).vitalHistory r.type = p.vitalHistory r.type ++ [r] := by
  simp [addVitalReading]
  intro hc
  exact absurd hc (by omega)

theorem addVitalReading_evict (p : PatientState) (r : VitalReading)
    (hlen : (p.vitalHistory r.type).length = 100) :
    (addVitalReading p r).vitalHistory r.type =
      (p.vitalHistory r.type).tail ++ [r] := by
  have hgt : (p.vitalHistory r.type ++ [r]).length > 100 := by
    rw [List.length_append]
    simp only [List.length_singleton]
    omega
  have htail : (p.vitalHistory r.type ++ [r]).tail =
      (p.vitalHistory r.type).tail ++ [r] := by
    cases hh : p.vitalHistory r.type with
    | nil => rw [hh] at hlen; simp at hlen
    | cons x xs => rfl
  simp [addVitalReading, hgt, htail]
  intro hc
  exact absurd hc (by omega)

theorem addVitalReading_inv (p : PatientState) (r : VitalReading) (hp : PatientInv p) :
    PatientInv (addVitalReading p r) := by
  intro v
  by_cases hv : v = r.type
  · rw [hv]
    have hle := hp r.type
    by_cases hc : (p.vitalHistory r.type).length < 100
    · rw [addVitalReading_append p r hc, List.length_append]
      simp only [List.length_singleton]
      omega
    · have h100 : (p.vitalHistory r.type).length = 100 := by omega
      rw [addVitalReading_evict p r h100, List.length_append, List.length_tail]
      simp only [List.length_singleton]
      omega
  · rw [addVitalReading_other p r v hv]
    exact hp v

theorem SchedInv_updatePatient (s : Scheduler) (pid : ℕ) (p : PatientState)
    (hs : SchedInv s) (hp : PatientInv p) :
    SchedInv (updatePatient s pid p) := by
  intro q hq
  simp only [updatePatient, List.mem_map] at hq
  obtain ⟨q0, hq0, rfl⟩ := hq
  by_cases h : q0.1 = pid
  · rw [if_pos h]
    exact hp
  · rw [if_neg h]
    exact hs q0 hq0

theorem lookupPatient_mem {s : Scheduler} {pid : ℕ} {p0 : PatientState}
    (h : lookupPatient s pid = some p0) : ∃ q ∈ s.patients, q.2 = p0 := by
  unfold lookupPatient at h
  cases hf : s.patients.find? (fun q => q.1 = pid) with
  | none => rw [hf] at h; cases h
  | some q =>
    rw [hf] at h
    simp only [Option.map_some'] at h
    exact ⟨q, List.mem_of_find?_eq_some hf, Option.some_inj.mp h⟩

theorem SchedInv_process (s : Scheduler) (r : VitalReading) (now : ℕ)
    (hs : SchedInv s) : SchedInv (processVitalReading s r now) := by
  unfold processVitalReading
  cases h : lookupPatient s r.patientId with
  | none => exact hs
  | some p0 =>
    intro q hq
    rw [processWithPatient_patients] at hq
    obtain ⟨q1, hmem, heq⟩ := lookupPatient_mem h
    have hp0 : PatientInv p0 := heq ▸ hs q1 hmem
    exact SchedInv_updatePatient s r.patientId (addVitalReading p0 r) hs
      (addVitalReading_inv p0 r hp0) q hq

theorem SchedInv_processMany :
    ∀ (rs : List (VitalReading × ℕ)) (s : Scheduler), SchedInv s →
      SchedInv (rs.foldl (fun st x => processVitalReading st x.1 x.2) s)
  | [], _, hs => hs
  | x :: rs, s, hs =>
      SchedInv_processMany rs (processVitalReading s x.1 x.2)
        (SchedInv_process s x.1 x.2 hs)

/-- C7: an append onto a window of fewer than 100 readings keeps the whole
window in insertion order; an append onto a window of exactly 100 readings
evicts exactly the oldest reading (FIFO) and keeps the rest in order; each
ingest preserves the all-windows ≤ 100 bound, and hence so does every
sequence of ingested readings — every history window has length at most
100 at all times. -/
theorem historyWindow_bounded_fifo :
    (∀ (p : PatientState) (r : VitalReading),
      ((p.vitalHistory r.type).length < 100 →
        (addVitalReading p r).vitalHistory r.type = p.vitalHistory r.type ++ [r]) ∧
      ((p.vitalHistory r.type).length = 100 →
        (addVitalReading p r).vitalHistory r.type =
          (p.vitalHistory r.type).tail ++ [r]) ∧
      (PatientInv p → PatientInv (addVitalReading p r))) ∧
    (∀ (s : Scheduler) (r : VitalReading) (now : ℕ),
      SchedInv s → SchedInv (processVitalReading s r now)) ∧
    (∀ (rs : List (VitalReading × ℕ)) (s : Scheduler), SchedInv s →
      SchedInv (rs.foldl (fun st x => processVitalReading st x.1 x.2) s)) :=
  ⟨fun p r => ⟨addVitalReading_append p r, addVitalReading_evict p r,
      addVitalReading_inv p r⟩,
   SchedInv_process,
   SchedInv_processMany⟩

/-- Reading used by concrete window scenarios. -/
def rW : VitalReading := ⟨VitalSign.HEART_RATE, 72, 10, 1⟩

/-- Patient with empty windows. -/
def patientW : PatientState := ⟨1, "W", 40, fun _ => [], Priority.LOW⟩

/-- Patient whose heart-rate window is full (100 readings). -/
def patient100 : PatientState :=
  ⟨2, "F", 50, fun _ => List.replicate 100 ⟨VitalSign.HEART_RATE, 70, 0, 2⟩,
   Priority.LOW⟩

/-- One-patient scheduler for the window-bound witness. -/
def schedulerW : Scheduler := ⟨[(1, patientW)], [], 0, 0⟩

/-- Witness for C7: append below capacity, FIFO eviction at capacity, and
invariant preservation through a concrete ingest. -/
theorem historyWindow_bounded_fifo_witness :
    (addVitalReading patientW rW).vitalHistory VitalSign.HEART_RATE
        = patientW.vitalHistory VitalSign.HEART_RATE ++ [rW] ∧
    (addVitalReading patient100 rW).vitalHistory VitalSign.HEART_RATE
        = (patient100.vitalHistory VitalSign.HEART_RATE).tail ++ [rW] ∧
    SchedInv (processVitalReading schedulerW rW 0) :=
  ⟨(historyWindow_bounded_fifo.1 patientW rW).1 (by decide),
   (historyWindow_bounded_fifo.1 patient100 rW).2.1 (by decide),
   historyWindow_bounded_fifo.2.1 schedulerW rW 0 (by
     intro q hq
     simp only [schedulerW, List.mem_singleton] at hq
     subst hq
     intro v
     simp [patientW])⟩

theorem find?_updatePatient_ne (l : List (ℕ × PatientState)) (pid pid2 : ℕ)
    (p' : PatientState) (hne : pid2 ≠ pid) :
    (l.map (fun q => if q.1 = pid then (pid, p') else q)).find?
        (fun q => q.1 = pid2) =
      l.find? (fun q => q.1 = pid2) := by
  induction l with
  | nil => rfl
  | cons q l ih =>
    simp only [List.map_cons]
    by_cases hq : q.1 = pid
    · rw [if_pos hq]
      rw [List.find?_cons_of_neg _ (by
        simp only [decide_eq_true_eq]
        exact fun hc => hne hc.symm)]
      rw [List.find?_cons_of_neg _ (by
        simp only [decide_eq_true_eq]
        intro hc
        exact hne (hc ▸ hq))]
      exact ih
    · rw [if_neg hq]
      by_cases hq2 : q.1 = pid2
      · rw [List.find?_cons_of_pos _ (by simp [hq2]),
          List.find?_cons_of_pos _ (by simp [hq2])]
      · rw [List.find?_cons_of_neg _ (by simp [hq2]),
          List.find?_cons_of_neg _ (by simp [hq2])]
        exact ih

theorem find?_updatePatient_eq (l : List (ℕ × PatientState)) (pid : ℕ)
    (p' : PatientState)
    (hrisk : ∀ q, l.find? (fun q => q.1 = pid) = some q →
        q.2.currentRiskLevel = p'.currentRiskLevel) :
    (((l.map (fun q => if q.1 = pid then (pid, p') else q)).find?
        (fun q => q.1 = pid)).map Prod.snd).map PatientState.currentRiskLevel =
      ((l.find? (fun q => q.1 = pid)).map Prod.snd).map
        PatientState.currentRiskLevel := by
  induction l with
  | nil => rfl
  | cons q l ih =>
    simp only [List.map_cons]
    by_cases hq : q.1 = pid
    · rw [if_pos hq]
      rw [List.find?_cons_of_pos _ (by simp),
        List.find?_cons_of_pos _ (by simp [hq])]
      simp only [Option.map_some']
      rw [hrisk q (List.find?_cons_of_pos _ (by simp [hq]))]
    · rw [if_neg hq]
      rw [List.find?_cons_of_neg _ (by simp [hq]),
        List.find?_cons_of_neg _ (by simp [hq])]
      exact ih (fun q2 hq2 =>
        hrisk q2 (by rw [List.find?_cons_of_neg _ (by simp [hq])]; exact hq2))

theorem addVitalReading_currentRisk (p : PatientState) (r : VitalReading) :
    (addVitalReading p r).currentRiskLevel = p.currentRiskLevel := rfl

/-- C9 amended: ingest never updates the stored aggregate risk level:
`processVitalReading` leaves every patient's `currentRiskLevel` exactly as
it was (the source defines `setCurrentRisk` but never calls it), so the
stored level does not track the maximum priority of the subject's
unacknowledged alerts. -/
theorem ingest_preserves_currentRiskLevel (s : Scheduler) (r : VitalReading)
    (now : ℕ) (pid : ℕ) :
    (lookupPatient (processVitalReading s r now) pid).map
        PatientState.currentRiskLevel
      = (lookupPatient s pid).map PatientState.currentRiskLevel := by
  unfold processVitalReading
  cases h : lookupPatient s r.patientId with
  | none => rfl
  | some p0 =>
    unfold lookupPatient
    rw [processWithPatient_patients]
    simp only [updatePatient]
    by_cases hpid : pid = r.patientId
    · subst hpid
      apply find?_updatePatient_eq
      intro q hq
      have hq2 : q.2 = p0 := by
        unfold lookupPatient at h
        rw [hq] at h
        simpa using h
      rw [hq2]
      rfl
    · rw [find?_updatePatient_ne s.patients r.patientId pid _ hpid]

/-- Patient with empty history used in the stale-risk counterexample. -/
def patientC9 : PatientState := ⟨1, "A", 50, fun _ => [], Priority.LOW⟩

/-- One-patient scheduler for the stale-risk counterexample. -/
def schedulerC9 : Scheduler := ⟨[(1, patientC9)], [], 0, 0⟩

/-- Heart-rate reading 200: classifies CRITICAL. -/
def readingC9 : VitalReading := ⟨VitalSign.HEART_RATE, 200, 0, 1⟩

/-- C9 counterexample: ingesting heart-rate 200 for patient 1 admits (and
enqueues) a CRITICAL alert which stays unacknowledged, yet the patient's
stored aggregate risk level remains LOW — it does not equal CRITICAL, the
maximum priority among the subject's unacknowledged alerts. -/
theorem riskLevel_not_updated_counterexample :
    (lookupPatient (processVitalReading schedulerC9 readingC9 0) 1).map
        PatientState.currentRiskLevel = some Priority.LOW ∧
    (processVitalReading schedulerC9 readingC9 0).alertQueue.map Alert.priority
        = [Priority.CRITICAL] ∧
    (∀ a ∈ (processVitalReading schedulerC9 readingC9 0).alertQueue,
        a.acknowledged = false) ∧
    Priority.LOW ≠ Priority.CRITICAL := by
  refine ⟨by decide, by decide, by decide, by decide⟩

theorem process_falseAlarmsFiltered (s : Scheduler) (r : VitalReading) (now : ℕ) :
    (processVitalReading s r now).falseAlarmsFiltered = s.falseAlarmsFiltered := by
  unfold processVitalReading
  cases h : lookupPatient s r.patientId with
  | none => rfl
  | some p0 => exact processWithPatient_falseAlarmsFiltered s p0 r now

/-- Noisy five-reading heart-rate history oscillating between 100 and 110. -/
def histC5 : List VitalReading :=
  [⟨VitalSign.HEART_RATE, 100, 0, 1⟩, ⟨VitalSign.HEART_RATE, 110, 1, 1⟩,
   ⟨VitalSign.HEART_RATE, 100, 2, 1⟩, ⟨VitalSign.HEART_RATE, 110, 3, 1⟩,
   ⟨VitalSign.HEART_RATE, 100, 4, 1⟩]

/-- Patient holding `histC5` in the heart-rate window. -/
def patientC5 : PatientState :=
  ⟨1, "S", 60, fun v => if v = VitalSign.HEART_RATE then histC5 else [],
   Priority.LOW⟩

/-- One-patient scheduler for the suppression scenario. -/
def schedulerC5 : Scheduler := ⟨[(1, patientC5)], [], 0, 0⟩

/-- Heart-rate reading 105: classifies MEDIUM (above the [60,100] normal
range) and lies well inside the noise of `histC5`. -/
def readingC5 : VitalReading := ⟨VitalSign.HEART_RATE, 105, 5, 1⟩

/-- The candidate MEDIUM alert built by the ingest of `readingC5`. -/
def alertC5 : Alert :=
  ⟨1, Priority.MEDIUM, generateAlertMessage readingC5 Priority.MEDIUM,
   VitalSign.HEART_RATE, 99, false⟩

/-- C5 (code-bug evidence): on every ingest the `falseAlarmsFiltered`
counter is unchanged — no statement of the source ever increments it, even
though the suppressed branch is commented "Still log false alarms for
statistics" and the counter is printed in the statistics report.  At the
concrete suppression scenario: `readingC5` classifies MEDIUM, its
candidate alert is suppressed by the filter (`isLikelyFalseAlarm` is
true), nothing is enqueued (as the claim states), and the counter stays
at its previous value instead of being incremented by 1. -/
theorem suppressed_alert_no_enqueue_counter_unchanged :
    (∀ (s : Scheduler) (r : VitalReading) (now : ℕ),
      (processVitalReading s r now).falseAlarmsFiltered = s.falseAlarmsFiltered) ∧
    assessRisk readingC5 = Priority.MEDIUM ∧
    getRecentReadings (addVitalReading patientC5 readingC5) VitalSign.HEART_RATE 10
        = histC5 ++ [readingC5] ∧
    isLikelyFalseAlarm alertC5 (histC5 ++ [readingC5]) = true ∧
    (processVitalReading schedulerC5 readingC5 99).alertQueue
        = schedulerC5.alertQueue ∧
    (processVitalReading schedulerC5 readingC5 99).falseAlarmsFiltered
        = schedulerC5.falseAlarmsFiltered := by
  refine ⟨process_falseAlarmsFiltered, by decide, by rfl, ?_, ?_,
    process_falseAlarmsFiltered schedulerC5 readingC5 99⟩
  · norm_num [isLikelyFalseAlarm, calculateMean, calculateVariance, alertC5,
      histC5, readingC5, List.getLastD,
      (show Priority.MEDIUM ≠ Priority.CRITICAL by decide)]
  · norm_num [processVitalReading, processWithPatient, lookupPatient,
      updatePatient, addAlertToQueue, addVitalReading, getRecentReadings,
      isLikelyFalseAlarm, calculateMean, calculateVariance, detectTrend,
      adjacentDiffSum, assessRisk, normalRanges, normalRangeCheck,
      schedulerC5, patientC5, histC5, readingC5, List.getLastD, List.find?,
      (show Priority.MEDIUM ≠ Priority.CRITICAL by decide),
      (show Priority.MEDIUM ≠ Priority.LOW by decide),
      (abs_of_nonneg (by norm_num : (0:ℚ) ≤ 5 / 4))]

/-- `AlertProcessor::checkResponseTimeRequirement`: SLA compliance of a
dequeued alert from the elapsed milliseconds since `createdAt` (a C++
`long`, modelled as ℤ). -/
def checkResponseTimeRequirement (priority : Priority) (responseTimeMs : ℤ) : Bool :=
  match priority with
  | Priority.CRITICAL => decide (responseTimeMs ≤ 2000)
  | Priority.HIGH => decide (responseTimeMs ≤ 30000)
  | Priority.MEDIUM => decide (responseTimeMs ≤ 300000)
  | Priority.LOW => decide (responseTimeMs ≤ 3600000)

/-- Per-priority SLA budget in milliseconds as stated by the spec:
CRITICAL 2 s, HIGH 30 s, MEDIUM 300 s, LOW 3600 s. -/
def specSlaBudgetMs : Priority → ℤ
  | Priority.CRITICAL => 2000
  | Priority.HIGH => 30000
  | Priority.MEDIUM => 300000
  | Priority.LOW => 3600000

/-- C8: a dequeued alert is SLA-compliant exactly when the elapsed time
since `createdAt` is at most the fixed per-priority budget (2000 ms
CRITICAL, 30000 ms HIGH, 300000 ms MEDIUM, 3600000 ms LOW); in particular
a CRITICAL alert dequeued 3000 ms after creation is a breach, and one
dequeued at 1500 ms is compliant. -/
theorem checkResponseTime_sla_budgets :
    (∀ (p : Priority) (elapsed : ℤ),
      checkResponseTimeRequirement p elapsed = true ↔ elapsed ≤ specSlaBudgetMs p) ∧
    checkResponseTimeRequirement Priority.CRITICAL 3000 = false ∧
    checkResponseTimeRequirement Priority.CRITICAL 1500 = true := by
  refine ⟨?_, by decide, by decide⟩
  intro p t
  cases p <;> simp [checkResponseTimeRequirement, specSlaBudgetMs]

end HospitalMonitor
